import Mathlib

/-!
Shallow embedding of `docs/js/main.js` of the stock_trend repository: the
`StockAnalyzer` page controller that fetches a JSON snapshot and renders a
market overview, a gainers list, a losers list and a statistics panel.

Conventions of the embedding:
* JS numbers are modelled as `ℚ`; JS template-literal stringification of a
  number (`${x}`) is abstracted as an explicit parameter `ntos : ℚ → String`,
  since the claims under verification never depend on the decimal rendering
  itself, only on signs, prefixes and fallbacks.  A JS value that may be
  `undefined` is an `Option`; `${x}` applied to `undefined` yields the string
  `"undefined"`, `undefined >= 0` is `false`, and `undefined` is falsy,
  exactly as in JS.
* The DOM is a record of the named regions the controller writes
  (`marketOverview`, `gainersList`, `losersList`, `statisticsContent`, the two
  period badges and the update-time element); `innerHTML` assignment is a
  record update.
* `fetch` is modelled by passing in the outcome (`FetchResult`); the analyzer
  state counts the fetches it has issued.
-/

/-- `Stock`: one entry of a ranking list (`name`, `symbol`, `price`,
`period_change`) as consumed by `renderRankingList`. -/
structure Stock where
  name : String
  symbol : String
  price : ℚ
  period_change : ℚ
deriving Repr, DecidableEq

/-- `statistics` object of a period: `sample_size` or `total_stocks`,
`avg_change`, and the up-ratio percentage (the source's `up_ratio` field,
embedded under the name `upRatioVal`), any of which may be absent. -/
structure Statistics where
  sample_size : Option ℚ
  total_stocks : Option ℚ
  avg_change : Option ℚ
  upRatioVal : Option ℚ
deriving Repr, DecidableEq

/-- `PeriodData`: `gainers`, `losers`, `statistics`, any of which may be
absent in the JSON. -/
structure PeriodData where
  gainers : Option (List Stock)
  losers : Option (List Stock)
  statistics : Option Statistics
deriving Repr, DecidableEq

/-- `market_overview` object: seven numeric fields, any of which may be
absent. -/
structure MarketOverview where
  total_stocks : Option ℚ
  up_stocks : Option ℚ
  down_stocks : Option ℚ
  limit_up : Option ℚ
  limit_down : Option ℚ
  avg_change : Option ℚ
  total_amount : Option ℚ
deriving Repr, DecidableEq

/-- `Snapshot`: the full JSON payload (`update_time`, `market_overview`,
`periods`).  `periods` is an association list keyed by period string, the
embedding of the JS object used as a map. -/
structure Snapshot where
  update_time : Option String
  market_overview : Option MarketOverview
  periods : Option (List (String × PeriodData))
deriving Repr, DecidableEq

/-- JS object lookup `this.data.periods[p]` guarded by
`!this.data.periods || !this.data.periods[p]` (and, in `renderStatistics`,
`this.data.periods?.[p]`): `none` when `periods` is absent or has no entry
for `p`. -/
def lookupPeriod (snap : Snapshot) (period : String) : Option PeriodData :=
  match snap.periods with
  | none => none
  | some m => (m.find? (fun e => e.1 == period)).map Prod.snd

/-- JS `x >= 0` where `x` may be `undefined`: `undefined >= 0` is `false`. -/
def jsGeZero : Option ℚ → Bool
  | some x => decide (0 ≤ x)
  | none => false

/-- JS template stringification `${x}` of a possibly-`undefined` number:
`undefined` prints as `"undefined"`. -/
def jsNumStr (ntos : ℚ → String) : Option ℚ → String
  | some x => ntos x
  | none => "undefined"

/-- JS truthiness of a possibly-`undefined` number: `undefined` and `0` are
falsy. -/
def numTruthy : Option ℚ → Bool
  | some x => decide (x ≠ 0)
  | none => false

/-- `escapeHtml` in `main.js` sets `div.textContent = text` and reads back
`div.innerHTML`; the browser serializes the text node by replacing `&` with
`&amp;`, `<` with `&lt;`, `>` with `&gt;` (and U+00A0 with `&nbsp;`).
This is that per-character replacement. -/
def escapeChar (c : Char) : String :=
  if c = '&' then "&amp;"
  else if c = '<' then "&lt;"
  else if c = '>' then "&gt;"
  else if c = ' ' then "&nbsp;"
  else String.singleton c

/-- Concatenation of `escapeChar` over a character list. -/
def escapeChars : List Char → String
  | [] => ""
  | c :: cs => escapeChar c ++ escapeChars cs

/-- `StockAnalyzer.escapeHtml(text)`: DOM text-node round-trip, i.e. the
character-wise markup escaping `escapeChar` applied to the whole string. -/
def escapeHtml (text : String) : String :=
  escapeChars text.data

/-- The `rankClass` of a row: `top1`/`top2`/`top3` for indices below 3,
otherwise the empty string (`index < 3 ? ``top${index + 1}`` : ''`). -/
def rankClassOf (index : Nat) : String :=
  if index < 3 then "top" ++ toString (index + 1) else ""

/-- The change prefix: `'+'` for the `'gainer'` list type, `''` otherwise
(`type === 'gainer' ? '+' : ''`). -/
def changePrefixOf (type : String) : String :=
  if type = "gainer" then "+" else ""

/-- The rank marker of a row: `<div class="rank ${rankClass}">${index + 1}</div>`. -/
def rankCell (index : Nat) : String :=
  "<div class=\"rank " ++ rankClassOf index ++ "\">" ++ toString (index + 1) ++ "</div>"

/-- The stock-name part of a row — the only row datum passed through
`escapeHtml`: `<div class="stock-name">${this.escapeHtml(stock.name)}</div>`. -/
def nameCell (name : String) : String :=
  "<div class=\"stock-name\">" ++ escapeHtml name ++ "</div>"

/-- The symbol-and-price part of a row; `stock.symbol` and `stock.price` are
interpolated raw, with no escaping. -/
def codeCell (ntos : ℚ → String) (stock : Stock) : String :=
  "<div class=\"stock-code\">\n                            " ++ stock.symbol
    ++ "\n                            <span class=\"stock-price\">¥" ++ ntos stock.price
    ++ "</span>\n                        </div>"

/-- The change part of a row:
`<div class="stock-change">${changePrefix}${stock.period_change}%</div>`,
with `period_change` interpolated raw. -/
def changeCell (ntos : ℚ → String) (type : String) (stock : Stock) : String :=
  "<div class=\"stock-change\">" ++ changePrefixOf type ++ ntos stock.period_change ++ "%</div>"

/-- One row of `renderRankingList`: the template literal assembled from its
cells — rank marker with rank number `index + 1`, escaped name, raw symbol
and price, prefixed change. -/
def renderRow (ntos : ℚ → String) (type : String) (index : Nat) (stock : Stock) : String :=
  "\n                <div class=\"ranking-item\">\n                    " ++ rankCell index
    ++ "\n                    <div class=\"stock-info\">\n                        " ++ nameCell stock.name
    ++ "\n                        " ++ codeCell ntos stock
    ++ "\n                    </div>\n                    " ++ changeCell ntos type stock
    ++ "\n                </div>\n            "

/-- The row list produced by `stocks.map((stock, index) => ...)` inside
`renderRankingList`, before `.join('')`. -/
def renderRankingRows (ntos : ℚ → String) (type : String) (stocks : List Stock) : List String :=
  stocks.mapIdx (fun index stock => renderRow ntos type index stock)

/-- The `'暂无数据'` empty placeholder used by the ranking renderers. -/
def emptyListHtml : String := "<div class=\"empty\">暂无数据</div>"

/-- `StockAnalyzer.renderRankingList(stocks, type)`: the placeholder when
`stocks` is absent or empty, otherwise the joined rows. -/
def renderRankingList (ntos : ℚ → String) (stocks : Option (List Stock)) (type : String) : String :=
  match stocks with
  | none => emptyListHtml
  | some l => if l.length = 0 then emptyListHtml
              else String.join (renderRankingRows ntos type l)

/-- The average-change value string of `renderMarketOverview`:
``` `${overview.avg_change >= 0 ? '+' : ''}${overview.avg_change}%` ```.
When `avg_change` is `undefined`, `undefined >= 0` is `false` and the
template stringifies `undefined`, giving `"undefined%"`. -/
def avgChangeDisplay (ntos : ℚ → String) (avg : Option ℚ) : String :=
  (if jsGeZero avg then "+" else "") ++ jsNumStr ntos avg ++ "%"

/-- The visual class of the average-change item:
`overview.avg_change >= 0 ? 'up' : 'down'`. -/
def avgChangeClass (avg : Option ℚ) : String :=
  if jsGeZero avg then "up" else "down"

/-- One entry of the `items` array of `renderMarketOverview`: label, value
(`Option String`, since the value of a plain field is a possibly-`undefined`
number while the average-change value is an already-built string), class. -/
structure OverviewItem where
  label : String
  value : Option String
  cls : String
deriving Repr, DecidableEq

/-- The seven-element `items` array of `renderMarketOverview`, in source
order.  Plain numeric fields keep `undefined` as `none` (the template's
`?? '-'` handles them later); the average-change value is a string built
eagerly, hence never nullish. -/
def overviewItems (ntos : ℚ → String) (o : MarketOverview) : List OverviewItem :=
  [ ⟨"股票总数", o.total_stocks.map ntos, "neutral"⟩,
    ⟨"上涨家数", o.up_stocks.map ntos, "up"⟩,
    ⟨"下跌家数", o.down_stocks.map ntos, "down"⟩,
    ⟨"涨停", o.limit_up.map ntos, "up"⟩,
    ⟨"跌停", o.limit_down.map ntos, "down"⟩,
    ⟨"平均涨跌", some (avgChangeDisplay ntos o.avg_change), avgChangeClass o.avg_change⟩,
    ⟨"成交额(亿)", o.total_amount.map ntos, "neutral"⟩ ]

/-- The display text of an overview item: `${item.value ?? '-'}`. -/
def itemValueDisplay (it : OverviewItem) : String :=
  it.value.getD "-"

/-- The rendered HTML of one overview item. -/
def renderOverviewItem (it : OverviewItem) : String :=
  "\n            <div class=\"overview-item\">\n                <div class=\"label\">"
    ++ it.label ++ "</div>\n                <div class=\"value " ++ it.cls ++ "\">"
    ++ itemValueDisplay it ++ "</div>\n            </div>\n        "

/-- `StockAnalyzer.renderMarketOverview()` (the part that computes the new
`innerHTML` of the `marketOverview` region): the `'暂无市场数据'` empty
message when `market_overview` is absent, else the joined seven items. -/
def renderMarketOverview (ntos : ℚ → String) (snap : Snapshot) : String :=
  match snap.market_overview with
  | none => "<div class=\"empty\">暂无市场数据</div>"
  | some o => String.join ((overviewItems ntos o).map renderOverviewItem)

/-- `StockAnalyzer.getPeriodLabel(period)`: the label map
`{'5d': '5日', '10d': '10日', '20d': '20日'}` with fallback to the key
itself (`labels[period] || period`). -/
def getPeriodLabel (period : String) : String :=
  if period = "5d" then "5日"
  else if period = "10d" then "10日"
  else if period = "20d" then "20日"
  else period

/-- The sample-size value of `renderStatistics`:
`stats.sample_size || stats.total_stocks || '-'` — JS `||` takes the first
truthy operand, so `0` and `undefined` both fall through. -/
def sampleSizeDisplay (ntos : ℚ → String) (stats : Statistics) : String :=
  if numTruthy stats.sample_size then jsNumStr ntos stats.sample_size
  else if numTruthy stats.total_stocks then jsNumStr ntos stats.total_stocks
  else "-"

/-- The average-change value string of `renderStatistics`:
``` `${stats.avg_change >= 0 ? '+' : ''}${stats.avg_change}%` ``` —
textually the same computation as in `renderMarketOverview`, duplicated in
the source. -/
def statsAvgDisplay (ntos : ℚ → String) (avg : Option ℚ) : String :=
  (if jsGeZero avg then "+" else "") ++ jsNumStr ntos avg ++ "%"

/-- The visual class of the statistics average-change item:
`stats.avg_change >= 0 ? 'up' : 'down'`. -/
def statsAvgClass (avg : Option ℚ) : String :=
  if jsGeZero avg then "up" else "down"

/-- The up-ratio value of `renderStatistics`:
``` `${stats.up_ratio || '-'}%` ``` — `||` again, so `0` and `undefined`
both display as `-`. -/
def upRatioDisplay (ntos : ℚ → String) (stats : Statistics) : String :=
  (if numTruthy stats.upRatioVal then jsNumStr ntos stats.upRatioVal else "-") ++ "%"

/-- One entry of the `items` array of `renderStatistics`: label, value
string, class. -/
structure StatItem where
  label : String
  value : String
  cls : String
deriving Repr, DecidableEq

/-- The four-element `items` array of `renderStatistics`, in source order. -/
def statsItems (ntos : ℚ → String) (period : String) (stats : Statistics) : List StatItem :=
  [ ⟨"分析周期", getPeriodLabel period, ""⟩,
    ⟨"样本数量", sampleSizeDisplay ntos stats, ""⟩,
    ⟨"平均涨跌幅", statsAvgDisplay ntos stats.avg_change, statsAvgClass stats.avg_change⟩,
    ⟨"上涨比例", upRatioDisplay ntos stats, ""⟩ ]

/-- The rendered HTML of one statistics item. -/
def renderStatItem (it : StatItem) : String :=
  "\n                    <div class=\"stat-item\">\n                        <div class=\"label\">"
    ++ it.label ++ "</div>\n                        <div class=\"value " ++ it.cls ++ "\">"
    ++ it.value ++ "</div>\n                    </div>\n                "

/-- The `'暂无统计数据'` empty message of `renderStatistics`. -/
def emptyStatsHtml : String := "<div class=\"empty\">暂无统计数据</div>"

/-- `StockAnalyzer.renderStatistics()` (the part that computes the new
`innerHTML` of the `statisticsContent` region): looks up
`this.data.periods?.[this.currentPeriod]?.statistics`; the empty message when
that is absent, else the stats grid. -/
def renderStatistics (ntos : ℚ → String) (snap : Snapshot) (period : String) : String :=
  match (lookupPeriod snap period).bind (fun pd => pd.statistics) with
  | none => emptyStatsHtml
  | some stats =>
      "\n            <div class=\"stats-grid\">\n                "
        ++ String.join ((statsItems ntos period stats).map renderStatItem)
        ++ "\n            </div>\n        "

/-- `StockAnalyzer.renderRankings()` (the pair of new `innerHTML` values of
the `gainersList` and `losersList` regions): the `'暂无数据'` placeholder in
both when `periods` is absent or has no entry for the current period, else
`renderRankingList` of the gainers (type `'gainer'`) and of the losers
(type `'loser'`). -/
def renderRankings (ntos : ℚ → String) (snap : Snapshot) (period : String) : String × String :=
  match lookupPeriod snap period with
  | none => (emptyListHtml, emptyListHtml)
  | some pd => (renderRankingList ntos pd.gainers "gainer",
                renderRankingList ntos pd.losers "loser")

/-- The DOM surface the controller writes: the four display regions, the two
period badges and the update-time element, each holding its current
`innerHTML`/`textContent`. -/
structure Dom where
  marketOverview : String
  gainersList : String
  losersList : String
  statisticsContent : String
  gainersPeriod : String
  losersPeriod : String
  updateTime : String
deriving Repr, DecidableEq

/-- The mutable state of a `StockAnalyzer` instance: `this.data`,
`this.currentPeriod`, the DOM it writes, and the count of `fetch` calls it
has issued. -/
structure AppState where
  data : Option Snapshot
  currentPeriod : String
  dom : Dom
  fetchCount : Nat
deriving Repr, DecidableEq

/-- Outcome of the `fetch` + `response.json()` round-trip inside `loadData`:
a parsed `Snapshot`, a non-success HTTP status (`!response.ok`), or a JSON
parse failure (`response.json()` rejects). -/
inductive FetchResult where
  | success (snap : Snapshot)
  | httpError
  | parseError
deriving Repr, DecidableEq

/-- The error message `loadData` passes to `showError`:
`'数据加载失败，请稍后刷新重试'`. -/
def loadErrMsg : String := "数据加载失败，请稍后刷新重试"

/-- The error template of `StockAnalyzer.showError(message)`. -/
def errorHtml (message : String) : String :=
  "\n                    <div class=\"error\">\n                        <div class=\"error-icon\">⚠️</div>\n                        <div>"
    ++ message ++ "</div>\n                    </div>\n                "

/-- `StockAnalyzer.showError(message)`: writes the error template into all
four display regions. -/
def showError (message : String) (dom : Dom) : Dom :=
  { dom with
    marketOverview := errorHtml message,
    gainersList := errorHtml message,
    losersList := errorHtml message,
    statisticsContent := errorHtml message }

/-- `StockAnalyzer.loadData()`: issues one fetch; on success stores the
parsed body in `this.data` (replacing any prior value); on a non-success
status or a parse failure the `catch` block runs `showError` and `this.data`
is never assigned. -/
def loadData (st : AppState) (result : FetchResult) : AppState :=
  match result with
  | .success snap => { st with data := some snap, fetchCount := st.fetchCount + 1 }
  | .httpError => { st with fetchCount := st.fetchCount + 1, dom := showError loadErrMsg st.dom }
  | .parseError => { st with fetchCount := st.fetchCount + 1, dom := showError loadErrMsg st.dom }

/-- `StockAnalyzer.updatePeriodBadges()`: sets both badges to the label of
the current period. -/
def updatePeriodBadges (st : AppState) : AppState :=
  { st with dom := { st.dom with
      gainersPeriod := getPeriodLabel st.currentPeriod,
      losersPeriod := getPeriodLabel st.currentPeriod } }

/-- The tab-click handler bound in `StockAnalyzer.bindEvents()`: sets
`this.currentPeriod` to the clicked tab's period, then runs
`renderRankings()`, `renderStatistics()` and `updatePeriodBadges()` — and
nothing else (no `loadData`, no `renderMarketOverview`).  When `this.data`
is `null`, `renderRankings` throws a `TypeError` at `this.data.periods`
before writing anything, aborting the handler; the returned `Bool` records
whether such an exception escaped. -/
def onTabClick (ntos : ℚ → String) (st : AppState) (period : String) : AppState × Bool :=
  let st1 := { st with currentPeriod := period }
  match st1.data with
  | none => (st1, true)
  | some snap =>
      let gl := renderRankings ntos snap period
      let st2 := { st1 with dom := { st1.dom with
                     gainersList := gl.1, losersList := gl.2,
                     statisticsContent := renderStatistics ntos snap period } }
      (updatePeriodBadges st2, false)

/-- The global regex replace in the `visibilitychange` handler: every `-`
character of `lastUpdate` replaced by `/` before `Date` parsing. -/
def replaceDashes (s : String) : String :=
  String.map (fun c => if c = '-' then '/' else c) s

/-- One hour in milliseconds, `60 * 60 * 1000`. -/
def oneHour : Int := 60 * 60 * 1000

/-- The staleness test of the `visibilitychange` handler (the part deciding
whether `loadData().then(render)` runs): reads
`window.stockAnalyzer.data?.update_time`; if that is truthy (present and
non-empty), parses it after normalizing `-` to `/` (the `Date` parse is the
parameter `parseDate`, milliseconds since epoch) and reloads exactly when
`now - updateTime > oneHour`. -/
def staleReloadTriggered (parseDate : String → Int) (now : Int)
    (data : Option Snapshot) : Bool :=
  match data.bind (fun snap => snap.update_time) with
  | none => false
  | some s =>
      if s = "" then false
      else decide (now - parseDate (replaceDashes s) > oneHour)

/-- `${value ?? '-'}` applied to a possibly-`undefined` numeric field value:
the stringified number, or `-` when the field is absent. -/
def valueOrDash (ntos : ℚ → String) (v : Option ℚ) : String :=
  (v.map ntos).getD "-"

/-- Concrete number stringifier for witnesses (the decimal rendering is
irrelevant to every claim). -/
def ntos0 : ℚ → String := fun _ => "1.5"

/-- Concrete `Date`-parse function for witnesses. -/
def parseDate0 : String → Int := fun _ => 0

/-- Concrete DOM contents for witnesses. -/
def dom0 : Dom :=
  ⟨"overview-html", "gainers-html", "losers-html", "stats-html", "5日", "5日", "2024-01-01 08:00:00"⟩

/-- Concrete stock for witnesses. -/
def stk0 : Stock := ⟨"平安银行", "000001", 10, 2⟩

/-- Concrete statistics object for witnesses. -/
def stat0 : Statistics := ⟨some 100, some 200, some 1, some 60⟩

/-- Statistics object whose `sample_size` and up-ratio are the number 0. -/
def statZ : Statistics := ⟨some 0, some 200, some 1, some 0⟩

/-- Concrete period data for witnesses. -/
def pd0 : PeriodData := ⟨some [stk0], some [stk0], some stat0⟩

/-- Concrete snapshot carrying only a `"5d"` period entry. -/
def snap0 : Snapshot := ⟨some "2024-01-01 08:00:00", none, some [("5d", pd0)]⟩

/-- Market overview with every field absent. -/
def ovNone : MarketOverview := ⟨none, none, none, none, none, none, none⟩

/-- Snapshot whose `market_overview` is present but has no fields. -/
def snapOv : Snapshot := ⟨none, some ovNone, none⟩

/-- Analyzer state after a failed initial load: no snapshot stored. -/
def st0 : AppState := ⟨none, "5d", dom0, 1⟩

/-- Analyzer state holding `snap0`. -/
def stOk : AppState := ⟨some snap0, "5d", dom0, 1⟩

-- Per-character escaping never emits a markup delimiter.
theorem escapeChar_no_angle (c : Char) : ∀ d ∈ (escapeChar c).data, d ≠ '<' ∧ d ≠ '>' := by
  unfold escapeChar
  split
  · decide
  · split
    · decide
    · split
      · decide
      · split
        · decide
        · rename_i h1 h2 h3 h4
          intro d hd
          simp [String.singleton] at hd
          subst hd
          exact ⟨h2, h3⟩

-- Lifting `escapeChar_no_angle` over a whole character list.
theorem escapeChars_no_angle (l : List Char) :
    ∀ d ∈ (escapeChars l).data, d ≠ '<' ∧ d ≠ '>' := by
  induction l with
  | nil => intro d hd; simp [escapeChars] at hd
  | cons c cs ih =>
      intro d hd
      rw [escapeChars, String.data_append] at hd
      rcases List.mem_append.mp hd with h | h
      · exact escapeChar_no_angle c d h
      · exact ih d h

/-- C1: whenever `loadData` fails — non-success HTTP status or JSON parse
failure — the stored snapshot `this.data` is exactly what it was before the
call, and the single error message is rendered into all four display
regions (market overview, gainers, losers, statistics); there is no
partial-success state. -/
theorem loadData_failure_frame (st : AppState) (r : FetchResult)
    (h : r = FetchResult.httpError ∨ r = FetchResult.parseError) :
    (loadData st r).data = st.data
  ∧ (loadData st r).dom.marketOverview = errorHtml loadErrMsg
  ∧ (loadData st r).dom.gainersList = errorHtml loadErrMsg
  ∧ (loadData st r).dom.losersList = errorHtml loadErrMsg
  ∧ (loadData st r).dom.statisticsContent = errorHtml loadErrMsg := by
  rcases h with h | h <;> subst h <;>
    exact ⟨rfl, rfl, rfl, rfl, rfl⟩

/-- Witness for C1 at a concrete failing fetch. -/
theorem loadData_failure_frame_witness :
    (loadData stOk FetchResult.httpError).data = stOk.data
  ∧ (loadData stOk FetchResult.httpError).dom.gainersList = errorHtml loadErrMsg :=
  ⟨(loadData_failure_frame stOk FetchResult.httpError (Or.inl rfl)).1,
   (loadData_failure_frame stOk FetchResult.httpError (Or.inl rfl)).2.2.1⟩

/-- C2: for every non-empty stock list of length N, `renderRankingList`
joins exactly N rows; row i is `renderRow` at index i, whose rank marker
displays the 1-based rank i+1; the distinguishing rank class is non-empty
exactly at indices 0, 1, 2; a gainers-typed list prefixes every change
value with `+` and a losers-typed list adds no prefix. -/
theorem rankingList_row_shape (ntos : ℚ → String) (type : String)
    (stocks : List Stock) (h : stocks ≠ []) :
    renderRankingList ntos (some stocks) type = String.join (renderRankingRows ntos type stocks)
  ∧ (renderRankingRows ntos type stocks).length = stocks.length
  ∧ (∀ i : Nat, (renderRankingRows ntos type stocks)[i]? =
       Option.map (renderRow ntos type i) stocks[i]?)
  ∧ (∀ i : Nat, rankCell i =
       "<div class=\"rank " ++ rankClassOf i ++ "\">" ++ toString (i + 1) ++ "</div>")
  ∧ (∀ i : Nat, i < 3 ↔ rankClassOf i ≠ "")
  ∧ (∀ stock : Stock, changeCell ntos "gainer" stock =
       "<div class=\"stock-change\">+" ++ ntos stock.period_change ++ "%</div>")
  ∧ (∀ stock : Stock, changeCell ntos "loser" stock =
       "<div class=\"stock-change\">" ++ ntos stock.period_change ++ "%</div>") := by
  refine ⟨?_, ?_, ?_, fun i => rfl, ?_, fun stock => rfl, fun stock => rfl⟩
  · simp [renderRankingList, List.length_eq_zero, h]
  · simp [renderRankingRows]
  · intro i; simp [renderRankingRows]
  · intro i
    constructor
    · intro h3
      simp only [rankClassOf, if_pos h3]
      intro heq
      have hlen := congrArg String.length heq
      simp [String.length_append] at hlen
      exact absurd hlen.1 (by decide)
    · intro hne
      by_contra hnot
      exact hne (by simp [rankClassOf, hnot])

/-- Witness for C2 at a concrete one-element gainer list. -/
theorem rankingList_row_shape_witness :
    ([stk0] ≠ ([] : List Stock))
  ∧ (renderRankingRows ntos0 "gainer" [stk0]).length = 1 :=
  ⟨by simp, (rankingList_row_shape ntos0 "gainer" [stk0] (by simp)).2.1⟩

/-- C3: stock names are neutralized before being placed in a row —
`escapeHtml` output never contains a raw `<` or `>` character, so a name
such as `<script>` appears as inert text — and in the row structure
`escapeHtml` is applied to the name field only, while symbol, price and
change are interpolated raw. -/
theorem rankingList_escapes_name (ntos : ℚ → String) (type : String)
    (index : Nat) (stock : Stock) :
    (∀ d ∈ (escapeHtml stock.name).data, d ≠ '<' ∧ d ≠ '>')
  ∧ nameCell stock.name = "<div class=\"stock-name\">" ++ escapeHtml stock.name ++ "</div>"
  ∧ codeCell ntos stock =
      "<div class=\"stock-code\">\n                            " ++ stock.symbol
        ++ "\n                            <span class=\"stock-price\">¥" ++ ntos stock.price
        ++ "</span>\n                        </div>"
  ∧ changeCell ntos type stock =
      "<div class=\"stock-change\">" ++ changePrefixOf type ++ ntos stock.period_change ++ "%</div>"
  ∧ renderRow ntos type index stock =
      "\n                <div class=\"ranking-item\">\n                    " ++ rankCell index
        ++ "\n                    <div class=\"stock-info\">\n                        "
        ++ nameCell stock.name
        ++ "\n                        " ++ codeCell ntos stock
        ++ "\n                    </div>\n                    " ++ changeCell ntos type stock
        ++ "\n                </div>\n            " :=
  ⟨escapeChars_no_angle stock.name.data, rfl, rfl, rfl, rfl⟩

/-- Witness for C3 at a concrete hostile stock name. -/
theorem rankingList_escapes_name_witness :
    ('<' ∉ (escapeHtml "<script>alert(1)</script>").data)
  ∧ escapeHtml "<script>" = "&lt;script&gt;" :=
  ⟨fun h =>
    ((rankingList_escapes_name ntos0 "gainer" 0
        ⟨"<script>alert(1)</script>", "000001", 1, 1⟩).1 '<' h).1 rfl,
   rfl⟩

/-- C4: for every snapshot in which `periods[currentPeriod]` is absent,
`renderRankings` writes the `'暂无数据'` placeholder into both the gainers
and losers regions and `renderStatistics` writes its empty-state message;
both operations are total functions of the snapshot, so neither throws. -/
theorem missing_period_placeholders (ntos : ℚ → String) (snap : Snapshot)
    (period : String) (h : lookupPeriod snap period = none) :
    renderRankings ntos snap period = (emptyListHtml, emptyListHtml)
  ∧ renderStatistics ntos snap period = emptyStatsHtml := by
  constructor
  · simp [renderRankings, h]
  · simp [renderStatistics, h]

/-- Witness for C4: `snap0` has a `"5d"` entry only, so the 20-day tab
renders the placeholders. -/
theorem missing_period_placeholders_witness :
    lookupPeriod snap0 "20d" = none
  ∧ renderRankings ntos0 snap0 "20d" = (emptyListHtml, emptyListHtml)
  ∧ renderStatistics ntos0 snap0 "20d" = emptyStatsHtml :=
  ⟨rfl,
   (missing_period_placeholders ntos0 snap0 "20d" rfl).1,
   (missing_period_placeholders ntos0 snap0 "20d" rfl).2⟩

/-- Counterexample to C5 as stated: with no stored snapshot (as after a
failed initial load) the tab-click handler throws a `TypeError` inside
`renderRankings` (at `this.data.periods`) and therefore does NOT re-render
the statistics region or the period badges, although the claim quantifies
over every tab selection event. -/
theorem tab_click_null_data_cex :
    (onTabClick ntos0 st0 "10d").2 = true
  ∧ (onTabClick ntos0 st0 "10d").1.dom.gainersPeriod = "5日"
  ∧ getPeriodLabel "10d" = "10日"
  ∧ (onTabClick ntos0 st0 "10d").1.dom.gainersPeriod ≠ getPeriodLabel "10d"
  ∧ (onTabClick ntos0 st0 "10d").1.dom.statisticsContent = st0.dom.statisticsContent := by
  refine ⟨rfl, rfl, rfl, ?_, rfl⟩
  decide

/-- C5 amended: for every tab selection made while a snapshot is stored,
the handler performs no fetch, leaves the stored snapshot and the rendered
market-overview region unchanged, does not throw, and re-renders exactly
the rankings, the statistics and the period badges for the newly selected
period. -/
theorem tab_click_frame (ntos : ℚ → String) (st : AppState) (snap : Snapshot)
    (period : String) (h : st.data = some snap) :
    (onTabClick ntos st period).2 = false
  ∧ (onTabClick ntos st period).1.fetchCount = st.fetchCount
  ∧ (onTabClick ntos st period).1.data = st.data
  ∧ (onTabClick ntos st period).1.dom.marketOverview = st.dom.marketOverview
  ∧ (onTabClick ntos st period).1.currentPeriod = period
  ∧ (onTabClick ntos st period).1.dom.gainersList = (renderRankings ntos snap period).1
  ∧ (onTabClick ntos st period).1.dom.losersList = (renderRankings ntos snap period).2
  ∧ (onTabClick ntos st period).1.dom.statisticsContent = renderStatistics ntos snap period
  ∧ (onTabClick ntos st period).1.dom.gainersPeriod = getPeriodLabel period
  ∧ (onTabClick ntos st period).1.dom.losersPeriod = getPeriodLabel period := by
  simp [onTabClick, h, updatePeriodBadges]

/-- Witness for C5 (amended) at a concrete stored snapshot. -/
theorem tab_click_frame_witness :
    (onTabClick ntos0 stOk "10d").2 = false
  ∧ (onTabClick ntos0 stOk "10d").1.fetchCount = stOk.fetchCount
  ∧ (onTabClick ntos0 stOk "10d").1.dom.marketOverview = stOk.dom.marketOverview :=
  ⟨(tab_click_frame ntos0 stOk snap0 "10d" rfl).1,
   (tab_click_frame ntos0 stOk snap0 "10d" rfl).2.1,
   (tab_click_frame ntos0 stOk snap0 "10d" rfl).2.2.2.1⟩

/-- C6: on a visibility-regained event with a truthy stored `update_time`,
the reload fires exactly when the current time minus the parsed
(`-`-to-`/` normalized) update time exceeds one hour (3,600,000 ms). -/
theorem stale_reload_iff (parseDate : String → Int) (now : Int)
    (data : Option Snapshot) (snap : Snapshot) (s : String)
    (h1 : data = some snap) (h2 : snap.update_time = some s) (h3 : s ≠ "") :
    staleReloadTriggered parseDate now data = true
      ↔ now - parseDate (replaceDashes s) > oneHour := by
  subst h1
  simp [staleReloadTriggered, h2, h3]

/-- Witness for C6: with a parse function returning epoch 0 and a clock one
millisecond past the hour, the reload fires. -/
theorem stale_reload_iff_witness :
    staleReloadTriggered parseDate0 (oneHour + 1) (some snap0) = true :=
  (stale_reload_iff parseDate0 (oneHour + 1) (some snap0) snap0
      "2024-01-01 08:00:00" rfl rfl (by decide)).mpr
    (by norm_num [parseDate0, oneHour])

/-- C10: the staleness check never reloads when the snapshot is absent or
its `update_time` is absent or empty, regardless of elapsed time; dually, a
triggered reload implies a stored non-empty `update_time`. -/
theorem no_reload_without_update_time (parseDate : String → Int) (now : Int)
    (data : Option Snapshot) :
    ((data = none ∨ ∃ snap, data = some snap ∧
        (snap.update_time = none ∨ snap.update_time = some "")) →
      staleReloadTriggered parseDate now data = false)
  ∧ (staleReloadTriggered parseDate now data = true →
      ∃ snap s, data = some snap ∧ snap.update_time = some s ∧ s ≠ "") := by
  constructor
  · rintro (rfl | ⟨snap, rfl, h | h⟩)
    · rfl
    · simp [staleReloadTriggered, h]
    · simp [staleReloadTriggered, h]
  · intro h
    cases data with
    | none => simp [staleReloadTriggered] at h
    | some snap =>
        cases hu : snap.update_time with
        | none => rw [staleReloadTriggered] at h; simp [hu] at h
        | some s =>
            refine ⟨snap, s, rfl, hu, ?_⟩
            intro hs
            subst hs
            rw [staleReloadTriggered] at h
            simp [hu] at h

/-- Witness for C10 with no snapshot stored at all. -/
theorem no_reload_without_update_time_witness :
    staleReloadTriggered parseDate0 (10 : Int) none = false :=
  (no_reload_without_update_time parseDate0 10 none).1 (Or.inl rfl)

/-- Counterexample to C7 as stated: in a snapshot whose `market_overview`
is present but has every field absent, the six plain fields do render `-`,
but the missing `avg_change` renders `undefined%` — the `?? '-'` fallback
never applies to it because its value is an eagerly built string. -/
theorem overview_missing_avg_cex :
    (overviewItems ntos0 ovNone).map itemValueDisplay
      = ["-", "-", "-", "-", "-", "undefined%", "-"]
  ∧ ("undefined%" : String) ≠ "-" := by
  refine ⟨rfl, ?_⟩
  decide

/-- C7 amended: with `market_overview` present, `renderMarketOverview`
renders the seven fixed fields; each of the six plainly interpolated fields
(total/up/down stock counts, limit-up, limit-down, total traded amount)
substitutes `-` when missing, while a missing `avg_change` instead renders
the string `undefined%` with visual class `down`. -/
theorem overview_missing_value_policy (ntos : ℚ → String) (snap : Snapshot)
    (o : MarketOverview) (h : snap.market_overview = some o) :
    renderMarketOverview ntos snap = String.join ((overviewItems ntos o).map renderOverviewItem)
  ∧ (overviewItems ntos o).length = 7
  ∧ (overviewItems ntos o).map itemValueDisplay
      = [valueOrDash ntos o.total_stocks, valueOrDash ntos o.up_stocks,
         valueOrDash ntos o.down_stocks, valueOrDash ntos o.limit_up,
         valueOrDash ntos o.limit_down, avgChangeDisplay ntos o.avg_change,
         valueOrDash ntos o.total_amount]
  ∧ valueOrDash ntos none = "-"
  ∧ (o.avg_change = none →
      avgChangeDisplay ntos o.avg_change = "undefined%"
    ∧ avgChangeClass o.avg_change = "down") := by
  refine ⟨?_, rfl, rfl, rfl, ?_⟩
  · simp [renderMarketOverview, h]
  · intro ha
    rw [ha]
    exact ⟨rfl, rfl⟩

/-- Witness for C7 (amended) at the all-absent overview. -/
theorem overview_missing_value_policy_witness :
    avgChangeDisplay ntos0 ovNone.avg_change = "undefined%"
  ∧ avgChangeClass ovNone.avg_change = "down" :=
  (overview_missing_value_policy ntos0 snapOv ovNone rfl).2.2.2.2 rfl

/-- C8: for every numeric `avg_change`, both the market overview and the
statistics panel render `+` followed by the value and `%` with class `up`
when the value is non-negative, and the bare value followed by `%` with
class `down` when it is negative. -/
theorem avg_change_sign_format (ntos : ℚ → String) (x : ℚ) :
    (0 ≤ x →
       avgChangeDisplay ntos (some x) = "+" ++ ntos x ++ "%"
     ∧ avgChangeClass (some x) = "up"
     ∧ statsAvgDisplay ntos (some x) = "+" ++ ntos x ++ "%"
     ∧ statsAvgClass (some x) = "up")
  ∧ (x < 0 →
       avgChangeDisplay ntos (some x) = ntos x ++ "%"
     ∧ avgChangeClass (some x) = "down"
     ∧ statsAvgDisplay ntos (some x) = ntos x ++ "%"
     ∧ statsAvgClass (some x) = "down") := by
  constructor
  · intro h
    simp [avgChangeDisplay, avgChangeClass, statsAvgDisplay, statsAvgClass,
          jsGeZero, jsNumStr, h]
  · intro h
    simp [avgChangeDisplay, avgChangeClass, statsAvgDisplay, statsAvgClass,
          jsGeZero, jsNumStr, not_le.mpr h]

/-- Witness for C8 at `avg_change = 1` and `avg_change = -1`. -/
theorem avg_change_sign_format_witness :
    (0 : ℚ) ≤ 1
  ∧ avgChangeClass (some (1 : ℚ)) = "up"
  ∧ avgChangeDisplay ntos0 (some (-1 : ℚ)) = ntos0 (-1) ++ "%" :=
  ⟨by norm_num,
   ((avg_change_sign_format ntos0 1).1 (by norm_num)).2.1,
   ((avg_change_sign_format ntos0 (-1)).2 (by norm_num)).1⟩

/-- C9: in `renderStatistics` a `sample_size` or up-ratio equal to the
number 0 behaves exactly like an absent field — the sample count falls back
to `total_stocks` (then `-`) and the ratio renders `-%` — because the `||`
fallbacks test truthiness, not absence. -/
theorem stats_zero_is_absent (ntos : ℚ → String) (stats : Statistics) :
    sampleSizeDisplay ntos { stats with sample_size := some 0 }
      = sampleSizeDisplay ntos { stats with sample_size := none }
  ∧ (stats.sample_size = some 0 →
      sampleSizeDisplay ntos stats
        = (if numTruthy stats.total_stocks then jsNumStr ntos stats.total_stocks else "-"))
  ∧ upRatioDisplay ntos { stats with upRatioVal := some 0 } = "-%"
  ∧ upRatioDisplay ntos { stats with upRatioVal := some 0 }
      = upRatioDisplay ntos { stats with upRatioVal := none } := by
  refine ⟨?_, ?_, ?_, ?_⟩
  · simp [sampleSizeDisplay, numTruthy]
  · intro h
    simp [sampleSizeDisplay, h, numTruthy]
  · simp [upRatioDisplay, numTruthy]
  · simp [upRatioDisplay, numTruthy]

/-- Witness for C9 at a statistics object with zero sample size and ratio. -/
theorem stats_zero_is_absent_witness :
    sampleSizeDisplay ntos0 statZ
      = (if numTruthy statZ.total_stocks then jsNumStr ntos0 statZ.total_stocks else "-") :=
  (stats_zero_is_absent ntos0 statZ).2.1 rfl
